import Mathlib

/-!
Verification development for the mutual-information estimator layer of
IDTxl (`idtxl/estimators_mi.py`).

The module is embedded shallowly:

* numpy arrays of floats become `Mat := List (List ℚ)`; all arithmetic is
  exact rational arithmetic, so the `astype('float32')` casts of the source
  are identities in the model;
* the OpenCL neighbour-search backend (`neighbour_search_opencl`, a separate
  module of the repository) is an abstract parameter `NSBackend`; every
  invocation of it is additionally recorded in a call trace;
* the `scipy.special.digamma` function is an abstract parameter `dg : ℚ → ℚ`;
* `np.random.normal(scale, size=v.shape)` is modelled as `scale` times a
  matrix of standard draws `g : ℕ → ℕ → ℚ` of exactly `v`'s shape;
* Python exceptions become an `Except PyErr` result; the state of the
  caller-owned input arrays after the call is returned explicitly so that
  in-place mutation is observable.
-/

/-- Matrices (numpy 2-D arrays) as lists of rows of exact rationals. -/
abbrev Mat : Type := List (List ℚ)

/-- Python exceptions that can escape the estimator layer in this model. -/
inductive PyErr : Type
  | typeError
  | valueError
  | indexError
  | attributeError
  | zeroDivisionError
deriving DecidableEq

/-- The recognised keys of the `opts` dictionary, over all estimators of the
module.  A key that is absent from the dictionary is `none`; `opts.get(key,
default)` then yields the default.  Values are modelled at their used types
(the `int()` / `np.float32()` conversions of well-typed option values are
identities in the exact model; the `str()` formatting done for the Java
property interface of the JIDT estimators is not modelled). -/
structure OptsDict where
  kraskov_k : Option ℤ := none
  theiler_t : Option ℤ := none
  noise_level : Option ℚ := none
  gpuid : Option ℤ := none
  lag : Option ℤ := none
  normalise : Option Bool := none
  local_values : Option Bool := none
  num_threads : Option String := none
  num_discrete_bins : Option ℤ := none
  discretise_method : Option String := none
  debug : Option Bool := none
deriving DecidableEq

/-- The `opts` argument of an estimator, as the Python call sees it:
`None`, a value of exact type `dict`, a non-`dict` object that nevertheless
supports `.get` (for example a `collections.OrderedDict` or any duck-typed
mapping — `type(opts) is not dict` holds for it), or a non-`dict` object
without a `.get` attribute. -/
inductive OptsArg : Type
  | pyNone
  | pyDict (d : OptsDict)
  | mapLike (d : OptsDict)
  | noGet
deriving DecidableEq

/-- The dictionary an estimator body reads its options from, after the
`if opts is None: opts = {}` normalisation.  (Only meaningful on arguments
that supply `.get`; the `noGet` case never reaches a read.) -/
def optsDictOf : OptsArg → OptsDict
  | OptsArg.pyDict d => d
  | OptsArg.mapLike d => d
  | _ => {}

/-- Options of `opencl_kraskov` after applying defaults (source lines 82-85):
`kraskov_k = int(opts.get('kraskov_k', 4))`, `theiler_t =
int(opts.get('theiler_t', 0))`, `noise_level = np.float32(opts.get(
'noise_level', 1e-8))`, `gpuid = int(opts.get('gpuid', 0))`. -/
structure OclConfig where
  kraskov_k : ℤ
  theiler_t : ℤ
  noise_level : ℚ
  gpuid : ℤ
deriving DecidableEq

/-- Default application for `opencl_kraskov`'s options. -/
def oclParseOpts (d : OptsDict) : OclConfig where
  kraskov_k := d.kraskov_k.getD 4
  theiler_t := d.theiler_t.getD 0
  noise_level := d.noise_level.getD (1 / 100000000)
  gpuid := d.gpuid.getD 0

/-- The configuration `opencl_kraskov` works with for a given `opts`
argument (after the `None` normalisation). -/
def oclCfg (opts : OptsArg) : OclConfig := oclParseOpts (optsDictOf opts)

/-- Number of columns of a 2-D array (`m.shape[1]`). -/
def rowDim (m : Mat) : ℕ := (m.headD []).length

/-- In-place noise perturbation `v += np.random.normal(scale=s, size=v.shape)`:
the draws matrix has exactly `v`'s shape, with standard draws `g i j` scaled
by `s`. -/
def addNoise (s : ℚ) (g : ℕ → ℕ → ℚ) (v : Mat) : Mat :=
  (List.range v.length).map fun i =>
    (List.range ((v.getD i []).length)).map fun j =>
      (v.getD i []).getD j 0 + s * g i j

/-- The average of a list of numbers (`np.mean`).  The source can only reach
it on nonempty slices in the situations we prove about; the `np.mean` of an
empty array (`NaN`) is not modelled. -/
def pymean (l : List ℚ) : ℚ := l.sum / (l.length : ℚ)

/-- Abstract OpenCL neighbour-search backend (module
`neighbour_search_opencl`): `knn_search(pointset, dim, k, theiler_t,
n_chunks, gpuid)` returns the pair of index and distance matrices, and
`range_search(pointset, dim, radii, theiler_t, n_chunks, gpuid)` returns the
per-point neighbour counts. -/
structure NSBackend where
  knn_search : Mat → ℕ → ℤ → ℤ → ℕ → ℤ → Mat × Mat
  range_search : Mat → ℕ → List ℚ → ℤ → ℕ → ℤ → List ℕ

/-- One recorded invocation of the neighbour-search backend. -/
inductive BackendCall : Type
  | knn (points : Mat) (dim : ℕ) (k theiler : ℤ) (nchunks : ℕ) (gpu : ℤ)
  | range (points : Mat) (dim : ℕ) (radii : List ℚ) (theiler : ℤ)
      (nchunks : ℕ) (gpu : ℤ)
deriving DecidableEq

/-- Observable outcome of a call to `opencl_kraskov`: the final contents of
the two caller-owned input arrays (they may have been mutated in place), the
trace of backend invocations, and the returned value or the raised
exception. -/
structure OclResult where
  var1Final : Mat
  var2Final : Mat
  trace : List BackendCall
  result : Except PyErr (List ℚ)

/-- Noisy first variable: source line 89, `var1 += np.random.normal(...)`. -/
def oclV1 (g1 : ℕ → ℕ → ℚ) (var1 : Mat) (opts : OptsArg) : Mat :=
  addNoise (oclCfg opts).noise_level g1 var1

/-- Noisy second variable: source line 90. -/
def oclV2 (g2 : ℕ → ℕ → ℚ) (var2 : Mat) (opts : OptsArg) : Mat :=
  addNoise (oclCfg opts).noise_level g2 var2

/-- Joint point set `np.hstack((var1, var2))` (source line 95), built from
the noisy variables.  `hstack` pairs rows; the source raises `ValueError`
when the row counts differ, which `opencl_kraskov` checks before using
this value. -/
def oclPs (g1 g2 : ℕ → ℕ → ℚ) (var1 var2 : Mat) (opts : OptsArg) : Mat :=
  List.zipWith (· ++ ·) (oclV1 g1 var1 opts) (oclV2 g2 var2 opts)

/-- Distance matrix of the joint-space KNN search (source lines 108-110). -/
def oclDistances (B : NSBackend) (g1 g2 : ℕ → ℕ → ℚ) (var1 var2 : Mat)
    (n_chunks : ℕ) (opts : OptsArg) : Mat :=
  (B.knn_search (oclPs g1 g2 var1 var2 opts) (rowDim (oclPs g1 g2 var1 var2 opts))
    (oclCfg opts).kraskov_k (oclCfg opts).theiler_t n_chunks
    (oclCfg opts).gpuid).2

/-- Per-point radii: the last row of the KNN distance matrix,
`radii = distances[distances.shape[0] - 1, :]` (source line 111). -/
def oclRadii (B : NSBackend) (g1 g2 : ℕ → ℕ → ℚ) (var1 var2 : Mat)
    (n_chunks : ℕ) (opts : OptsArg) : List ℚ :=
  (oclDistances B g1 g2 var1 var2 n_chunks opts).getLastD []

/-- Marginal neighbour counts of the first variable (source lines 115-116). -/
def oclC1 (B : NSBackend) (g1 g2 : ℕ → ℕ → ℚ) (var1 var2 : Mat)
    (n_chunks : ℕ) (opts : OptsArg) : List ℕ :=
  B.range_search (oclV1 g1 var1 opts) (rowDim (oclV1 g1 var1 opts))
    (oclRadii B g1 g2 var1 var2 n_chunks opts) (oclCfg opts).theiler_t
    n_chunks (oclCfg opts).gpuid

/-- Marginal neighbour counts of the second variable (source lines 117-118). -/
def oclC2 (B : NSBackend) (g1 g2 : ℕ → ℕ → ℚ) (var1 var2 : Mat)
    (n_chunks : ℕ) (opts : OptsArg) : List ℕ :=
  B.range_search (oclV2 g2 var2 opts) (rowDim (oclV2 g2 var2 opts))
    (oclRadii B g1 g2 var1 var2 n_chunks opts) (oclCfg opts).theiler_t
    n_chunks (oclCfg opts).gpuid

/-- The recorded joint-space KNN invocation. -/
def oclKnnCall (g1 g2 : ℕ → ℕ → ℚ) (var1 var2 : Mat)
    (n_chunks : ℕ) (opts : OptsArg) : BackendCall :=
  BackendCall.knn (oclPs g1 g2 var1 var2 opts)
    (rowDim (oclPs g1 g2 var1 var2 opts)) (oclCfg opts).kraskov_k
    (oclCfg opts).theiler_t n_chunks (oclCfg opts).gpuid

/-- The MI of one chunk (source lines 123-127):
`digamma(kraskov_k) + digamma(chunksize) - np.mean(digamma(c1_slice + 1) +
digamma(c2_slice + 1))` where the slices are
`count[chunknum * chunksize : (chunknum + 1) * chunksize]`.  `chunksize`
is the float `N / n_chunks`; the float slice bounds are truncated to
integers by numpy (the bounds are nonnegative, so truncation is `⌊·⌋`). -/
def chunkMI (dg : ℚ → ℚ) (k : ℤ) (chunksize : ℚ) (c1 c2 : List ℕ)
    (chunknum : ℕ) : ℚ :=
  let lo : ℕ := (⌊(chunknum : ℚ) * chunksize⌋).toNat
  let hi : ℕ := (⌊((chunknum : ℚ) + 1) * chunksize⌋).toNat
  let s1 : List ℕ := (c1.drop lo).take (hi - lo)
  let s2 : List ℕ := (c2.drop lo).take (hi - lo)
  dg (k : ℚ) + dg chunksize -
    pymean (List.zipWith
      (fun (a : ℕ) (b : ℕ) => dg ((a : ℚ) + 1) + dg ((b : ℚ) + 1)) s1 s2)

/-- Body of `opencl_kraskov` after the `opts` type check, with the source's
order of failure points: a negative noise scale makes `np.random.normal`
raise `ValueError` before any mutation; `np.hstack` raises `ValueError` when
the (already mutated) variables have different sample counts; the float
division `chunksize = signallengthpergpu / nchunkspergpu` raises
`ZeroDivisionError` for `n_chunks = 0`; indexing `distances[shape[0]-1, :]`
raises `IndexError` on an empty distance matrix.  Otherwise one MI value per
chunk is returned. -/
def oclBody (B : NSBackend) (dg : ℚ → ℚ) (g1 g2 : ℕ → ℕ → ℚ)
    (var1 var2 : Mat) (n_chunks : ℕ) (opts : OptsArg) : OclResult :=
  if (oclCfg opts).noise_level < 0 then
    ⟨var1, var2, [], Except.error PyErr.valueError⟩
  else if (oclV1 g1 var1 opts).length ≠ (oclV2 g2 var2 opts).length then
    ⟨oclV1 g1 var1 opts, oclV2 g2 var2 opts, [], Except.error PyErr.valueError⟩
  else if n_chunks = 0 then
    ⟨oclV1 g1 var1 opts, oclV2 g2 var2 opts, [],
      Except.error PyErr.zeroDivisionError⟩
  else if (oclDistances B g1 g2 var1 var2 n_chunks opts).isEmpty then
    ⟨oclV1 g1 var1 opts, oclV2 g2 var2 opts,
      [oclKnnCall g1 g2 var1 var2 n_chunks opts],
      Except.error PyErr.indexError⟩
  else
    ⟨oclV1 g1 var1 opts, oclV2 g2 var2 opts,
      [oclKnnCall g1 g2 var1 var2 n_chunks opts,
        BackendCall.range (oclV1 g1 var1 opts) (rowDim (oclV1 g1 var1 opts))
          (oclRadii B g1 g2 var1 var2 n_chunks opts) (oclCfg opts).theiler_t
          n_chunks (oclCfg opts).gpuid,
        BackendCall.range (oclV2 g2 var2 opts) (rowDim (oclV2 g2 var2 opts))
          (oclRadii B g1 g2 var1 var2 n_chunks opts) (oclCfg opts).theiler_t
          n_chunks (oclCfg opts).gpuid],
      Except.ok ((List.range n_chunks).map
        (chunkMI dg (oclCfg opts).kraskov_k
          (((oclPs g1 g2 var1 var2 opts).length : ℚ) / (n_chunks : ℚ))
          (oclC1 B g1 g2 var1 var2 n_chunks opts)
          (oclC2 B g1 g2 var1 var2 n_chunks opts)))⟩

/-- Model of `opencl_kraskov(self, var1, var2, n_chunks=1, opts=None)`
(source lines 35-129).  The first statement raises `TypeError` whenever
`opts` is neither `None` nor exactly a `dict` (source lines 76-79). -/
def opencl_kraskov (B : NSBackend) (dg : ℚ → ℚ) (g1 g2 : ℕ → ℕ → ℚ)
    (var1 var2 : Mat) (n_chunks : ℕ) (opts : OptsArg) : OclResult :=
  match opts with
  | OptsArg.mapLike _ => ⟨var1, var2, [], Except.error PyErr.typeError⟩
  | OptsArg.noGet => ⟨var1, var2, [], Except.error PyErr.typeError⟩
  | _ => oclBody B dg g1 g2 var1 var2 n_chunks opts

/-- The static estimator registry of `is_parallel` (source lines 24-27). -/
def parallel_estimators : List (String × Bool) :=
  [("opencl_kraskov", true), ("jidt_kraskov", false),
   ("jidt_discrete", false), ("jidt_gaussian", false)]

/-- Return value of `is_parallel` together with the diagnostics it prints:
the function catches the `KeyError` of an unknown name, so it is total. -/
structure IsParallelResult where
  supports_parallel : Bool
  diagnostics : List String
deriving DecidableEq

/-- Model of `is_parallel(estimator_name)` (source lines 22-32). -/
def is_parallel (estimator_name : String) : IsParallelResult :=
  match parallel_estimators.lookup estimator_name with
  | some b => ⟨b, []⟩
  | none =>
      ⟨false, ["Unknown estimator name, assuming estimator to be serial."]⟩

/-- Everything `jidt_kraskov` hands to the external JIDT Kraskov-1
calculator (source lines 199-216): the configured properties, the
`initialise` dimensions and the observation arrays.  numpy preserves the
column count of a sliced array, so the dimensions are those of the original
variables. -/
structure JidtKraskovCall where
  kraskov_k : ℤ
  normalise : Bool
  theiler_t : ℤ
  noise_level : ℚ
  num_threads : String
  local_values : Bool
  dim1 : ℕ
  dim2 : ℕ
  obs1 : Mat
  obs2 : Mat
deriving DecidableEq

/-- Model of `jidt_kraskov(self, var1, var2, opts=None)` up to the external
JIDT calculator call (source lines 132-216): the `opts` type check, the
option defaults (lines 186-192), and the lag shift (lines 194-197), which
for `lag > 0` replaces `var1` by `var1[:-lag]` and `var2` by `var2[lag:]`. -/
def jidt_kraskov_call (var1 var2 : Mat) (opts : OptsArg) :
    Except PyErr JidtKraskovCall :=
  match opts with
  | OptsArg.mapLike _ => Except.error PyErr.typeError
  | OptsArg.noGet => Except.error PyErr.typeError
  | _ =>
    let d := optsDictOf opts
    let lag : ℤ := d.lag.getD 0
    Except.ok
      { kraskov_k := d.kraskov_k.getD 4
        normalise := d.normalise.getD false
        theiler_t := d.theiler_t.getD 0
        noise_level := d.noise_level.getD (1 / 100000000)
        num_threads := d.num_threads.getD "USE_ALL"
        local_values := d.local_values.getD false
        dim1 := rowDim var1
        dim2 := rowDim var2
        obs1 := if 0 < lag then var1.take (var1.length - lag.toNat) else var1
        obs2 := if 0 < lag then var2.drop lag.toNat else var2 }

/-- Model of `jidt_kraskov` itself: the external calculator is an abstract
function of everything handed to it. -/
def jidt_kraskov (calcMI : JidtKraskovCall → ℚ) (var1 var2 : Mat)
    (opts : OptsArg) : Except PyErr ℚ :=
  (jidt_kraskov_call var1 var2 opts).map calcMI

/-- Everything `jidt_gaussian` hands to the external JIDT Gaussian
calculator (source lines 374-386). -/
structure JidtGaussianCall where
  local_values : Bool
  dim1 : ℕ
  dim2 : ℕ
  obs1 : Mat
  obs2 : Mat
deriving DecidableEq

/-- Model of `jidt_gaussian(self, var1, var2, opts=None)` up to the external
JIDT calculator call (source lines 329-386), including its `opts` type
check (lines 366-369). -/
def jidt_gaussian_call (var1 var2 : Mat) (opts : OptsArg) :
    Except PyErr JidtGaussianCall :=
  match opts with
  | OptsArg.mapLike _ => Except.error PyErr.typeError
  | OptsArg.noGet => Except.error PyErr.typeError
  | _ =>
    let d := optsDictOf opts
    Except.ok
      { local_values := d.local_values.getD false
        dim1 := rowDim var1
        dim2 := rowDim var2
        obs1 := var1
        obs2 := var2 }

/-- The parameters `jidt_discrete` reads from `opts` (source lines 268-271). -/
structure JidtDiscreteOpts where
  num_discrete_bins : ℤ
  lag : ℤ
  discretise_method : String
  debug : Bool
deriving DecidableEq

/-- Default application for `jidt_discrete`'s options. -/
def jidtDiscreteParseDict (d : OptsDict) : JidtDiscreteOpts where
  num_discrete_bins := d.num_discrete_bins.getD 2
  lag := d.lag.getD 0
  discretise_method := d.discretise_method.getD "none"
  debug := d.debug.getD false

/-- The option-parsing stage of `jidt_discrete(self, var1, var2, opts=None)`
(source lines 264-271).  Unlike the other estimators of the module,
`jidt_discrete` has no `type(opts) is not dict` check: after the `None`
normalisation it calls `opts.get` directly, so a non-`dict` mapping-like
object is accepted, and only an object without a `.get` attribute fails
(with `AttributeError`, at the first access). -/
def jidt_discrete_optsStage (opts : OptsArg) : Except PyErr JidtDiscreteOpts :=
  match opts with
  | OptsArg.noGet => Except.error PyErr.attributeError
  | OptsArg.pyNone => Except.ok (jidtDiscreteParseDict {})
  | OptsArg.pyDict d => Except.ok (jidtDiscreteParseDict d)
  | OptsArg.mapLike d => Except.ok (jidtDiscreteParseDict d)

/-- Fixture: a deterministic neighbour-search backend used to evaluate the
model on concrete inputs.  Its KNN search always reports the distance
matrix `[[1, 1], [1, 1], [1, 1]]` (three rows so that any `kraskov_k ≤ 3`
is served) and its range search counts one neighbour per point. -/
def fixtureBackend : NSBackend where
  knn_search := fun _ _ _ _ _ _ => ([], [[1, 1], [1, 1], [1, 1]])
  range_search := fun pts _ _ _ _ _ => pts.map fun r => r.length

/-- Fixture: a three-row backend variant whose distance matrix has one
column per point of a three-point set. -/
def fixtureBackend3 : NSBackend where
  knn_search := fun _ _ _ _ _ _ => ([], [[1, 1, 1]])
  range_search := fun pts _ _ _ _ _ => pts.map fun r => r.length

/-- Fixture: standard-normal draws that are identically zero. -/
def zeroDraws : ℕ → ℕ → ℚ := fun _ _ => 0

/-- Fixture: standard-normal draws that are identically one. -/
def oneDraws : ℕ → ℕ → ℚ := fun _ _ => 1

/-- Fixture: a two-sample, one-dimensional realisation matrix. -/
def fixtureVar : Mat := [[0], [1]]

/-- Fixture: a three-sample, one-dimensional realisation matrix. -/
def fixtureVar3 : Mat := [[1], [2], [3]]

/-! ### Helper lemmas about the embedding -/

theorem addNoise_length (s : ℚ) (g : ℕ → ℕ → ℚ) (v : Mat) :
    (addNoise s g v).length = v.length := by
  simp [addNoise]

theorem addNoise_getD (s : ℚ) (g : ℕ → ℕ → ℚ) (v : Mat) (i j : ℕ)
    (hi : i < v.length) (hj : j < (v.getD i []).length) :
    ((addNoise s g v).getD i []).getD j 0
      = (v.getD i []).getD j 0 + s * g i j := by
  have h1 : (addNoise s g v).getD i []
      = (List.range ((v.getD i []).length)).map
          (fun k => (v.getD i []).getD k 0 + s * g i k) := by
    rw [addNoise, List.getD_eq_getElem _ _ (by simpa using hi),
      List.getElem_map, List.getElem_range]
  rw [h1, List.getD_eq_getElem _ _ (by simpa using hj),
    List.getElem_map, List.getElem_range]

theorem oclV1_length (g1 : ℕ → ℕ → ℚ) (var1 : Mat) (opts : OptsArg) :
    (oclV1 g1 var1 opts).length = var1.length := by
  simp [oclV1, addNoise_length]

theorem oclV2_length (g2 : ℕ → ℕ → ℚ) (var2 : Mat) (opts : OptsArg) :
    (oclV2 g2 var2 opts).length = var2.length := by
  simp [oclV2, addNoise_length]

theorem oclPs_length (g1 g2 : ℕ → ℕ → ℚ) (var1 var2 : Mat) (opts : OptsArg) :
    (oclPs g1 g2 var1 var2 opts).length = min var1.length var2.length := by
  simp [oclPs, List.length_zipWith, oclV1_length, oclV2_length]

theorem slice_length (c : List ℕ) (m t : ℕ) (h : m + t ≤ c.length) :
    ((c.drop m).take t).length = t := by
  simp only [List.length_take, List.length_drop]
  omega

theorem slice_getD (c : List ℕ) (m t i : ℕ) (hi : i < t)
    (h : m + t ≤ c.length) :
    ((c.drop m).take t).getD i 0 = c.getD (m + i) 0 := by
  have h1 : i < ((c.drop m).take t).length := by
    rw [slice_length c m t h]; exact hi
  rw [List.getD_eq_getElem _ _ h1, List.getElem_take, List.getElem_drop,
    List.getD_eq_getElem _ _ (by omega)]

theorem sum_zipWith_range (f : ℕ → ℕ → ℚ) :
    ∀ (a b : List ℕ), a.length = b.length →
      (List.zipWith f a b).sum
        = ∑ i ∈ Finset.range a.length, f (a.getD i 0) (b.getD i 0)
  | [], [], _ => by simp
  | [], _ :: _, h => by simp at h
  | _ :: _, [], h => by simp at h
  | x :: xs, y :: ys, h => by
      simp only [List.zipWith, List.sum_cons, List.length_cons]
      rw [sum_zipWith_range f xs ys (by simpa using h),
        Finset.sum_range_succ']
      simp only [List.getD_cons_succ, List.getD_cons_zero]
      rw [add_comm]

theorem int_toNat_numeral (n : ℕ) : Int.toNat (OfNat.ofNat n) = OfNat.ofNat n :=
  rfl

theorem toNat_floor_nat_mul (a b : ℕ) : (⌊(a : ℚ) * (b : ℚ)⌋).toNat = a * b := by
  have h : (a : ℚ) * (b : ℚ) = ((a * b : ℕ) : ℚ) := by push_cast; ring
  rw [h, Int.floor_natCast]
  exact Int.toNat_natCast _

/-- Unfolding of the happy path of `oclBody`: a successful call implies that
all guards passed and the returned list is the per-chunk MI map. -/
theorem oclBody_ok (B : NSBackend) (dg : ℚ → ℚ) (g1 g2 : ℕ → ℕ → ℚ)
    (var1 var2 : Mat) (n_chunks : ℕ) (opts : OptsArg) (mis : List ℚ)
    (hres : (oclBody B dg g1 g2 var1 var2 n_chunks opts).result
      = Except.ok mis) :
    (oclV1 g1 var1 opts).length = (oclV2 g2 var2 opts).length ∧
    n_chunks ≠ 0 ∧
    mis = (List.range n_chunks).map
      (chunkMI dg (oclCfg opts).kraskov_k
        (((oclPs g1 g2 var1 var2 opts).length : ℚ) / (n_chunks : ℚ))
        (oclC1 B g1 g2 var1 var2 n_chunks opts)
        (oclC2 B g1 g2 var1 var2 n_chunks opts)) := by
  rw [oclBody] at hres
  split_ifs at hres with h1 h2 h3 h4
  refine ⟨not_not.mp h2, h3, ?_⟩
  simpa using hres.symm

/-- A successful `opencl_kraskov` call went through `oclBody`. -/
theorem opencl_kraskov_ok_body (B : NSBackend) (dg : ℚ → ℚ)
    (g1 g2 : ℕ → ℕ → ℚ) (var1 var2 : Mat) (n_chunks : ℕ) (opts : OptsArg)
    (mis : List ℚ)
    (hres : (opencl_kraskov B dg g1 g2 var1 var2 n_chunks opts).result
      = Except.ok mis) :
    opencl_kraskov B dg g1 g2 var1 var2 n_chunks opts
      = oclBody B dg g1 g2 var1 var2 n_chunks opts := by
  cases opts with
  | pyNone => rfl
  | pyDict d => rfl
  | mapLike d => simp [opencl_kraskov] at hres
  | noGet => simp [opencl_kraskov] at hres

/-- After a valid (non-negative) noise scale was parsed, every branch of
`oclBody` reports the noisy arrays as the final state of the caller-owned
inputs, whether or not an error is raised later. -/
theorem oclBody_finals (B : NSBackend) (dg : ℚ → ℚ) (g1 g2 : ℕ → ℕ → ℚ)
    (var1 var2 : Mat) (n_chunks : ℕ) (opts : OptsArg)
    (hs : ¬ (oclCfg opts).noise_level < 0) :
    (oclBody B dg g1 g2 var1 var2 n_chunks opts).var1Final
      = oclV1 g1 var1 opts ∧
    (oclBody B dg g1 g2 var1 var2 n_chunks opts).var2Final
      = oclV2 g2 var2 opts := by
  rw [oclBody]
  split_ifs
  all_goals exact ⟨rfl, rfl⟩

/-! ### Claim theorems -/

/-- C8: when the options mapping omits them, `opencl_kraskov` uses the
default option values: neighbour count `kraskov_k = 4`, Theiler window
`theiler_t = 0`, noise standard deviation `noise_level = 1e-8`, and device
id `gpuid = 0`.  (`oclCfg` is the configuration `opencl_kraskov` computes
from its `opts` argument.) -/
theorem oclCfg_defaults (d : OptsDict)
    (hk : d.kraskov_k = none) (ht : d.theiler_t = none)
    (hn : d.noise_level = none) (hg : d.gpuid = none) :
    oclCfg (OptsArg.pyDict d) =
      { kraskov_k := 4, theiler_t := 0, noise_level := 1 / 100000000,
        gpuid := 0 } := by
  simp [oclCfg, optsDictOf, oclParseOpts, hk, ht, hn, hg]

/-- Witness for C8 at the empty options dictionary. -/
theorem oclCfg_defaults_witness :
    oclCfg (OptsArg.pyDict {}) =
      { kraskov_k := 4, theiler_t := 0, noise_level := 1 / 100000000,
        gpuid := 0 } :=
  oclCfg_defaults {} rfl rfl rfl rfl

/-- C6: `is_parallel` with a name that is not in the registry does not
raise: the caught `KeyError` leads to the result `supports_parallel =
false` together with a printed diagnostic. -/
theorem is_parallel_unknown_name (name : String)
    (h : parallel_estimators.lookup name = none) :
    is_parallel name =
      ⟨false, ["Unknown estimator name, assuming estimator to be serial."]⟩ := by
  simp [is_parallel, h]

/-- Witness for C6 at a concrete unknown name. -/
theorem is_parallel_unknown_name_witness :
    is_parallel "brute_force_kraskov" =
      ⟨false, ["Unknown estimator name, assuming estimator to be serial."]⟩ :=
  is_parallel_unknown_name "brute_force_kraskov" (by decide)

/-- C7: the registry behind `is_parallel` is a fixed table consulted on
every call: the four registered names have the listed flags,
`opencl_kraskov` is the only name for which `supports_parallel` is `true`,
and every call's flag is exactly the table lookup (with the serial
default).  The model is a pure function of a constant list, so no call can
mutate the table. -/
theorem is_parallel_registry_static :
    is_parallel "opencl_kraskov" = ⟨true, []⟩ ∧
    is_parallel "jidt_kraskov" = ⟨false, []⟩ ∧
    is_parallel "jidt_discrete" = ⟨false, []⟩ ∧
    is_parallel "jidt_gaussian" = ⟨false, []⟩ ∧
    (∀ name : String,
      (is_parallel name).supports_parallel = (name == "opencl_kraskov")) ∧
    (∀ name : String,
      (is_parallel name).supports_parallel
        = (parallel_estimators.lookup name).getD false) := by
  refine ⟨by decide, by decide, by decide, by decide, ?_, ?_⟩
  · intro name
    by_cases h1 : name = "opencl_kraskov"
    · subst h1; decide
    · by_cases h2 : name = "jidt_kraskov"
      · subst h2; decide
      · by_cases h3 : name = "jidt_discrete"
        · subst h3; decide
        · by_cases h4 : name = "jidt_gaussian"
          · subst h4; decide
          · have e1 : (name == "opencl_kraskov") = false := by simpa using h1
            have e2 : (name == "jidt_kraskov") = false := by simpa using h2
            have e3 : (name == "jidt_discrete") = false := by simpa using h3
            have e4 : (name == "jidt_gaussian") = false := by simpa using h4
            simp [is_parallel, parallel_estimators, List.lookup, e1, e2, e3, e4]
  · intro name
    by_cases h1 : name = "opencl_kraskov"
    · subst h1; decide
    · by_cases h2 : name = "jidt_kraskov"
      · subst h2; decide
      · by_cases h3 : name = "jidt_discrete"
        · subst h3; decide
        · by_cases h4 : name = "jidt_gaussian"
          · subst h4; decide
          · have e1 : (name == "opencl_kraskov") = false := by simpa using h1
            have e2 : (name == "jidt_kraskov") = false := by simpa using h2
            have e3 : (name == "jidt_discrete") = false := by simpa using h3
            have e4 : (name == "jidt_gaussian") = false := by simpa using h4
            simp [is_parallel, parallel_estimators, List.lookup, e1, e2, e3, e4]

/-- C9 counterexample: `jidt_discrete` does not raise for every non-`dict`
options argument.  A mapping-like object that is not a `dict` (so
`type(opts) is not dict` holds, e.g. a `collections.OrderedDict`) passes
`jidt_discrete`'s option stage without any error, because that estimator,
unlike the others, never checks the type of `opts`. -/
theorem jidt_discrete_accepts_nondict :
    jidt_discrete_optsStage (OptsArg.mapLike {})
      = Except.ok ⟨2, 0, "none", false⟩ := rfl

/-- C9 (amended): `opencl_kraskov`, `jidt_kraskov` and `jidt_gaussian`
raise `TypeError` synchronously for a non-`dict`, non-`None` options
argument, before any computation or mutation of the inputs (`opencl_kraskov`
returns its inputs unchanged and performs no backend call); `jidt_discrete`
performs no such check: an object without `.get` only fails with
`AttributeError` at the first option access, and a mapping-like non-`dict`
proceeds without error. -/
theorem opts_type_check_per_estimator :
    (∀ B dg g1 g2 var1 var2 n_chunks d,
      opencl_kraskov B dg g1 g2 var1 var2 n_chunks (OptsArg.mapLike d)
        = ⟨var1, var2, [], Except.error PyErr.typeError⟩) ∧
    (∀ B dg g1 g2 var1 var2 n_chunks,
      opencl_kraskov B dg g1 g2 var1 var2 n_chunks OptsArg.noGet
        = ⟨var1, var2, [], Except.error PyErr.typeError⟩) ∧
    (∀ var1 var2 d, jidt_kraskov_call var1 var2 (OptsArg.mapLike d)
        = Except.error PyErr.typeError) ∧
    (∀ var1 var2, jidt_kraskov_call var1 var2 OptsArg.noGet
        = Except.error PyErr.typeError) ∧
    (∀ var1 var2 d, jidt_gaussian_call var1 var2 (OptsArg.mapLike d)
        = Except.error PyErr.typeError) ∧
    (∀ var1 var2, jidt_gaussian_call var1 var2 OptsArg.noGet
        = Except.error PyErr.typeError) ∧
    jidt_discrete_optsStage OptsArg.noGet
      = Except.error PyErr.attributeError ∧
    (∀ d, jidt_discrete_optsStage (OptsArg.mapLike d)
        = Except.ok (jidtDiscreteParseDict d)) :=
  ⟨fun _ _ _ _ _ _ _ _ => rfl, fun _ _ _ _ _ _ _ => rfl,
   fun _ _ _ => rfl, fun _ _ => rfl, fun _ _ _ => rfl, fun _ _ => rfl,
   rfl, fun _ => rfl⟩

/-- C10: with an options entry `lag = L`, `jidt_kraskov` computes the MI
between `var1[:-L]` (the first `N - L` samples) and `var2[L:]` (the last
`N - L` samples) when `L > 0`, and between the unshifted full arrays when
`L = 0`: those are the observation arrays handed to the JIDT calculator. -/
theorem jidt_kraskov_lag_shift (var1 var2 : Mat) (d : OptsDict) (L : ℤ)
    (hd : d.lag = some L) :
    ∃ c : JidtKraskovCall,
      jidt_kraskov_call var1 var2 (OptsArg.pyDict d) = Except.ok c ∧
      (0 < L → c.obs1 = var1.take (var1.length - L.toNat)
        ∧ c.obs2 = var2.drop L.toNat) ∧
      (L = 0 → c.obs1 = var1 ∧ c.obs2 = var2) := by
  refine ⟨_, rfl, ?_, ?_⟩
  · intro hL
    constructor <;> simp [jidt_kraskov_call, optsDictOf, hd, hL]
  · intro hL
    constructor <;> simp [jidt_kraskov_call, optsDictOf, hd, hL]

/-- C4: a call to `opencl_kraskov` with a valid `opts` argument mutates the
caller-owned arrays in place: after the call, entry `(i, j)` of each input
array equals the original entry plus the configured noise scale times the
Gaussian draw for that entry.  No success of the estimation is required —
the mutation happens before estimation and persists on the later error
paths as well. -/
theorem opencl_kraskov_mutates_in_place (B : NSBackend) (dg : ℚ → ℚ)
    (g1 g2 : ℕ → ℕ → ℚ) (var1 var2 : Mat) (n_chunks : ℕ) (opts : OptsArg)
    (hopts : opts = OptsArg.pyNone ∨ ∃ d, opts = OptsArg.pyDict d)
    (hs : 0 ≤ (oclCfg opts).noise_level) :
    (∀ i j, i < var1.length → j < (var1.getD i []).length →
      (((opencl_kraskov B dg g1 g2 var1 var2 n_chunks opts).var1Final).getD
          i []).getD j 0
        = (var1.getD i []).getD j 0 + (oclCfg opts).noise_level * g1 i j) ∧
    (∀ i j, i < var2.length → j < (var2.getD i []).length →
      (((opencl_kraskov B dg g1 g2 var1 var2 n_chunks opts).var2Final).getD
          i []).getD j 0
        = (var2.getD i []).getD j 0 + (oclCfg opts).noise_level * g2 i j) := by
  have hb : opencl_kraskov B dg g1 g2 var1 var2 n_chunks opts
      = oclBody B dg g1 g2 var1 var2 n_chunks opts := by
    rcases hopts with h | ⟨d, h⟩ <;> subst h <;> rfl
  have hf := oclBody_finals B dg g1 g2 var1 var2 n_chunks opts (not_lt.mpr hs)
  constructor
  · intro i j hi hj
    rw [hb, hf.1]
    simp only [oclV1]
    exact addNoise_getD _ g1 var1 i j hi hj
  · intro i j hi hj
    rw [hb, hf.2]
    simp only [oclV2]
    exact addNoise_getD _ g2 var2 i j hi hj

/-- Witness for C4 at entry `(0, 0)` of a concrete call. -/
theorem opencl_kraskov_mutates_in_place_witness :
    (((opencl_kraskov fixtureBackend id oneDraws oneDraws fixtureVar fixtureVar 1
          OptsArg.pyNone).var1Final).getD 0 []).getD 0 0
      = (fixtureVar.getD 0 []).getD 0 0
        + (oclCfg OptsArg.pyNone).noise_level * oneDraws 0 0 :=
  (opencl_kraskov_mutates_in_place fixtureBackend id oneDraws oneDraws fixtureVar
      fixtureVar 1 OptsArg.pyNone (Or.inl rfl)
      (by norm_num [oclCfg, oclParseOpts, optsDictOf])).1 0 0
    (by norm_num [fixtureVar]) (by norm_num [fixtureVar])

/-- C5: with `noise_level = 0` the estimator is deterministic — two calls
with identical inputs and options but arbitrary, possibly different,
random draws return identical results (including identical final array
states and backend traces), because the zero scale annihilates the noise. -/
theorem opencl_kraskov_deterministic_when_noiseless (B : NSBackend)
    (dg : ℚ → ℚ) (g1 g2 g1' g2' : ℕ → ℕ → ℚ) (var1 var2 : Mat)
    (n_chunks : ℕ) (d : OptsDict) (hd : d.noise_level = some 0) :
    opencl_kraskov B dg g1 g2 var1 var2 n_chunks (OptsArg.pyDict d)
      = opencl_kraskov B dg g1' g2' var1 var2 n_chunks (OptsArg.pyDict d) := by
  have h0 : (oclCfg (OptsArg.pyDict d)).noise_level = 0 := by
    simp [oclCfg, oclParseOpts, optsDictOf, hd]
  have hv1 : oclV1 g1 var1 (OptsArg.pyDict d)
      = oclV1 g1' var1 (OptsArg.pyDict d) := by
    simp [oclV1, addNoise, h0]
  have hv2 : oclV2 g2 var2 (OptsArg.pyDict d)
      = oclV2 g2' var2 (OptsArg.pyDict d) := by
    simp [oclV2, addNoise, h0]
  have hps : oclPs g1 g2 var1 var2 (OptsArg.pyDict d)
      = oclPs g1' g2' var1 var2 (OptsArg.pyDict d) := by
    simp only [oclPs]
    rw [hv1, hv2]
  have hdist : oclDistances B g1 g2 var1 var2 n_chunks (OptsArg.pyDict d)
      = oclDistances B g1' g2' var1 var2 n_chunks (OptsArg.pyDict d) := by
    simp only [oclDistances]
    rw [hps]
  have hradii : oclRadii B g1 g2 var1 var2 n_chunks (OptsArg.pyDict d)
      = oclRadii B g1' g2' var1 var2 n_chunks (OptsArg.pyDict d) := by
    simp only [oclRadii]
    rw [hdist]
  have hc1 : oclC1 B g1 g2 var1 var2 n_chunks (OptsArg.pyDict d)
      = oclC1 B g1' g2' var1 var2 n_chunks (OptsArg.pyDict d) := by
    simp only [oclC1]
    rw [hv1, hradii]
  have hc2 : oclC2 B g1 g2 var1 var2 n_chunks (OptsArg.pyDict d)
      = oclC2 B g1' g2' var1 var2 n_chunks (OptsArg.pyDict d) := by
    simp only [oclC2]
    rw [hv2, hradii]
  have hknn : oclKnnCall g1 g2 var1 var2 n_chunks (OptsArg.pyDict d)
      = oclKnnCall g1' g2' var1 var2 n_chunks (OptsArg.pyDict d) := by
    simp only [oclKnnCall]
    rw [hps]
  show oclBody B dg g1 g2 var1 var2 n_chunks (OptsArg.pyDict d)
      = oclBody B dg g1' g2' var1 var2 n_chunks (OptsArg.pyDict d)
  simp only [oclBody]
  rw [hv1, hv2, hps, hdist, hradii, hc1, hc2, hknn]

/-- Witness for C5: zero draws versus all-ones draws at `noise_level = 0`. -/
theorem opencl_kraskov_deterministic_when_noiseless_witness :
    opencl_kraskov fixtureBackend id zeroDraws zeroDraws fixtureVar fixtureVar 1
        (OptsArg.pyDict { noise_level := some 0 })
      = opencl_kraskov fixtureBackend id oneDraws oneDraws fixtureVar fixtureVar 1
        (OptsArg.pyDict { noise_level := some 0 }) :=
  opencl_kraskov_deterministic_when_noiseless fixtureBackend id zeroDraws zeroDraws
    oneDraws oneDraws fixtureVar fixtureVar 1 { noise_level := some 0 } rfl

/-- C3 evaluation: a call whose `n_chunks` does not divide the sample count
does not fail with a dimension error — no divisibility check exists (the
source carries a `TODO check for integer result` comment at the
`chunksize` division).  With `N = 3` samples and `n_chunks = 2` the call
returns two MI values computed over the truncated uneven slices `[0:1]`
and `[1:3]` of the count arrays. -/
theorem opencl_kraskov_fractional_chunksize_runs :
    (opencl_kraskov fixtureBackend3 id zeroDraws zeroDraws fixtureVar3 fixtureVar3
        2 (OptsArg.pyDict { noise_level := some 0 })).result
      = Except.ok [3 / 2, 3 / 2] := by
  norm_num [opencl_kraskov, oclBody, oclCfg, oclParseOpts, optsDictOf, oclV1,
    oclV2, addNoise, oclPs, oclDistances, oclRadii, oclC1, oclC2, oclKnnCall,
    chunkMI, pymean, rowDim, fixtureBackend3, fixtureVar3, zeroDraws,
    List.range_succ, int_toNat_numeral]
  norm_num [show Int.toNat 3 = 3 from rfl]

/-- C2: on every successful call, `opencl_kraskov` performs exactly one
joint-space KNN search followed by two range searches — one on the (noisy)
`var1` marginal space and one on the (noisy) `var2` marginal space — and
both range searches receive as radii the last row of the distance matrix
returned by the joint-space KNN search, together with the same `theiler_t`
and the same `n_chunks` (and device id) as the KNN search. -/
theorem opencl_kraskov_radii_flow (B : NSBackend) (dg : ℚ → ℚ)
    (g1 g2 : ℕ → ℕ → ℚ) (var1 var2 : Mat) (n_chunks : ℕ) (opts : OptsArg)
    (mis : List ℚ)
    (hres : (opencl_kraskov B dg g1 g2 var1 var2 n_chunks opts).result
      = Except.ok mis) :
    (opencl_kraskov B dg g1 g2 var1 var2 n_chunks opts).trace =
      [BackendCall.knn (oclPs g1 g2 var1 var2 opts)
          (rowDim (oclPs g1 g2 var1 var2 opts)) (oclCfg opts).kraskov_k
          (oclCfg opts).theiler_t n_chunks (oclCfg opts).gpuid,
        BackendCall.range (oclV1 g1 var1 opts) (rowDim (oclV1 g1 var1 opts))
          ((B.knn_search (oclPs g1 g2 var1 var2 opts)
              (rowDim (oclPs g1 g2 var1 var2 opts)) (oclCfg opts).kraskov_k
              (oclCfg opts).theiler_t n_chunks (oclCfg opts).gpuid).2.getLastD
            [])
          (oclCfg opts).theiler_t n_chunks (oclCfg opts).gpuid,
        BackendCall.range (oclV2 g2 var2 opts) (rowDim (oclV2 g2 var2 opts))
          ((B.knn_search (oclPs g1 g2 var1 var2 opts)
              (rowDim (oclPs g1 g2 var1 var2 opts)) (oclCfg opts).kraskov_k
              (oclCfg opts).theiler_t n_chunks (oclCfg opts).gpuid).2.getLastD
            [])
          (oclCfg opts).theiler_t n_chunks (oclCfg opts).gpuid] := by
  have hbody : (oclBody B dg g1 g2 var1 var2 n_chunks opts).result
      = Except.ok mis := by
    rw [← opencl_kraskov_ok_body B dg g1 g2 var1 var2 n_chunks opts mis hres]
    exact hres
  rw [opencl_kraskov_ok_body B dg g1 g2 var1 var2 n_chunks opts mis hres]
  rw [oclBody] at hbody ⊢
  split_ifs at hbody ⊢
  simp [oclKnnCall, oclRadii, oclDistances]

/-- Witness for C2 on a concrete successful call. -/
theorem opencl_kraskov_radii_flow_witness :
    (opencl_kraskov fixtureBackend id zeroDraws zeroDraws fixtureVar fixtureVar 1
        OptsArg.pyNone).trace =
      [BackendCall.knn (oclPs zeroDraws zeroDraws fixtureVar fixtureVar
          OptsArg.pyNone)
          (rowDim (oclPs zeroDraws zeroDraws fixtureVar fixtureVar
            OptsArg.pyNone))
          (oclCfg OptsArg.pyNone).kraskov_k (oclCfg OptsArg.pyNone).theiler_t 1
          (oclCfg OptsArg.pyNone).gpuid,
        BackendCall.range (oclV1 zeroDraws fixtureVar OptsArg.pyNone)
          (rowDim (oclV1 zeroDraws fixtureVar OptsArg.pyNone))
          ((fixtureBackend.knn_search
              (oclPs zeroDraws zeroDraws fixtureVar fixtureVar OptsArg.pyNone)
              (rowDim (oclPs zeroDraws zeroDraws fixtureVar fixtureVar
                OptsArg.pyNone))
              (oclCfg OptsArg.pyNone).kraskov_k (oclCfg OptsArg.pyNone).theiler_t
              1 (oclCfg OptsArg.pyNone).gpuid).2.getLastD [])
          (oclCfg OptsArg.pyNone).theiler_t 1 (oclCfg OptsArg.pyNone).gpuid,
        BackendCall.range (oclV2 zeroDraws fixtureVar OptsArg.pyNone)
          (rowDim (oclV2 zeroDraws fixtureVar OptsArg.pyNone))
          ((fixtureBackend.knn_search
              (oclPs zeroDraws zeroDraws fixtureVar fixtureVar OptsArg.pyNone)
              (rowDim (oclPs zeroDraws zeroDraws fixtureVar fixtureVar
                OptsArg.pyNone))
              (oclCfg OptsArg.pyNone).kraskov_k (oclCfg OptsArg.pyNone).theiler_t
              1 (oclCfg OptsArg.pyNone).gpuid).2.getLastD [])
          (oclCfg OptsArg.pyNone).theiler_t 1 (oclCfg OptsArg.pyNone).gpuid] :=
  opencl_kraskov_radii_flow fixtureBackend id zeroDraws zeroDraws fixtureVar
    fixtureVar 1 OptsArg.pyNone [2]
    (by
      norm_num [opencl_kraskov, oclBody, oclCfg, oclParseOpts, optsDictOf,
        oclV1, oclV2, addNoise, oclPs, oclDistances, oclRadii, oclC1, oclC2,
        oclKnnCall, chunkMI, pymean, rowDim, fixtureBackend, fixtureVar,
        zeroDraws, List.range_succ]
      norm_num [show Int.toNat 2 = 2 from rfl])

/-- C1: on every successful call with `n_chunks` evenly dividing the sample
count (`N = cs * n_chunks` with chunk size `cs > 0`) and per-point count
arrays from the backend, the result is an ordered sequence of exactly
`n_chunks` values whose entry `j` is `digamma(k) + digamma(cs)` minus the
mean, over the points of chunk `j` (sample indices `j*cs .. j*cs + cs - 1`),
of `digamma(n_x + 1) + digamma(n_y + 1)`, where `n_x`, `n_y` are the
per-point marginal range-search counts. -/
theorem opencl_kraskov_chunk_formula (B : NSBackend) (dg : ℚ → ℚ)
    (g1 g2 : ℕ → ℕ → ℚ) (var1 var2 : Mat) (n_chunks cs : ℕ) (opts : OptsArg)
    (mis : List ℚ) (j : ℕ)
    (hres : (opencl_kraskov B dg g1 g2 var1 var2 n_chunks opts).result
      = Except.ok mis)
    (hN : var1.length = cs * n_chunks)
    (hcs : 0 < cs) (hj : j < n_chunks)
    (hc1 : (oclC1 B g1 g2 var1 var2 n_chunks opts).length = var1.length)
    (hc2 : (oclC2 B g1 g2 var1 var2 n_chunks opts).length = var1.length) :
    mis.length = n_chunks ∧
    mis.getD j 0 =
      dg ((oclCfg opts).kraskov_k : ℚ) + dg (cs : ℚ) -
        (∑ i ∈ Finset.range cs,
          (dg (((oclC1 B g1 g2 var1 var2 n_chunks opts).getD (j * cs + i) 0 : ℚ)
              + 1)
            + dg (((oclC2 B g1 g2 var1 var2 n_chunks opts).getD (j * cs + i) 0
              : ℚ) + 1)))
          / (cs : ℚ) := by
  have hbody : (oclBody B dg g1 g2 var1 var2 n_chunks opts).result
      = Except.ok mis := by
    rw [← opencl_kraskov_ok_body B dg g1 g2 var1 var2 n_chunks opts mis hres]
    exact hres
  obtain ⟨hlen, hn0, hform⟩ :=
    oclBody_ok B dg g1 g2 var1 var2 n_chunks opts mis hbody
  have hv1l := oclV1_length g1 var1 opts
  have hv2l := oclV2_length g2 var2 opts
  have h12 : var1.length = var2.length := by rw [← hv1l, ← hv2l, hlen]
  have hpsl : (oclPs g1 g2 var1 var2 opts).length = cs * n_chunks := by
    rw [oclPs_length, ← h12, min_self, hN]
  have hq : (n_chunks : ℚ) ≠ 0 := Nat.cast_ne_zero.mpr hn0
  have hchi : ((oclPs g1 g2 var1 var2 opts).length : ℚ) / (n_chunks : ℚ)
      = (cs : ℚ) := by
    rw [hpsl]
    push_cast
    rw [mul_div_assoc, div_self hq, mul_one]
  have hb1 : j * cs + cs ≤ (oclC1 B g1 g2 var1 var2 n_chunks opts).length := by
    rw [hc1, hN]
    calc j * cs + cs = (j + 1) * cs := (Nat.succ_mul j cs).symm
      _ ≤ n_chunks * cs := Nat.mul_le_mul_right cs hj
      _ = cs * n_chunks := Nat.mul_comm _ _
  have hb2 : j * cs + cs ≤ (oclC2 B g1 g2 var1 var2 n_chunks opts).length := by
    rw [hc2, hN]
    calc j * cs + cs = (j + 1) * cs := (Nat.succ_mul j cs).symm
      _ ≤ n_chunks * cs := Nat.mul_le_mul_right cs hj
      _ = cs * n_chunks := Nat.mul_comm _ _
  subst hform
  refine ⟨by simp, ?_⟩
  have hjl : j < ((List.range n_chunks).map
      (chunkMI dg (oclCfg opts).kraskov_k
        (((oclPs g1 g2 var1 var2 opts).length : ℚ) / (n_chunks : ℚ))
        (oclC1 B g1 g2 var1 var2 n_chunks opts)
        (oclC2 B g1 g2 var1 var2 n_chunks opts))).length := by
    simpa using hj
  rw [List.getD_eq_getElem _ _ hjl, List.getElem_map, List.getElem_range, hchi]
  simp only [chunkMI]
  rw [toNat_floor_nat_mul j cs]
  have hsucc : ((j : ℚ) + 1) = (((j + 1 : ℕ)) : ℚ) := by push_cast; ring
  rw [hsucc, toNat_floor_nat_mul (j + 1) cs]
  have hdiff : (j + 1) * cs - j * cs = cs := by
    rw [Nat.succ_mul, Nat.add_sub_cancel_left]
  rw [hdiff]
  have hl1 : (((oclC1 B g1 g2 var1 var2 n_chunks opts).drop (j * cs)).take
      cs).length = cs := slice_length _ _ _ hb1
  have hl2 : (((oclC2 B g1 g2 var1 var2 n_chunks opts).drop (j * cs)).take
      cs).length = cs := slice_length _ _ _ hb2
  simp only [pymean]
  rw [sum_zipWith_range _ _ _ (hl1.trans hl2.symm)]
  rw [List.length_zipWith, hl1, hl2, min_self]
  congr 1
  congr 1
  apply Finset.sum_congr rfl
  intro i hi
  rw [slice_getD _ _ _ _ (Finset.mem_range.mp hi) hb1,
    slice_getD _ _ _ _ (Finset.mem_range.mp hi) hb2]

/-- Witness for C1 on a concrete successful call with two samples and one
chunk. -/
theorem opencl_kraskov_chunk_formula_witness :
    ([(2 : ℚ)]).length = 1 ∧
    ([(2 : ℚ)]).getD 0 0 =
      id ((oclCfg OptsArg.pyNone).kraskov_k : ℚ) + id ((2 : ℕ) : ℚ) -
        (∑ i ∈ Finset.range 2,
          (id (((oclC1 fixtureBackend zeroDraws zeroDraws fixtureVar fixtureVar
                1 OptsArg.pyNone).getD (0 * 2 + i) 0 : ℚ) + 1)
            + id (((oclC2 fixtureBackend zeroDraws zeroDraws fixtureVar
                fixtureVar 1 OptsArg.pyNone).getD (0 * 2 + i) 0 : ℚ) + 1)))
          / ((2 : ℕ) : ℚ) :=
  opencl_kraskov_chunk_formula fixtureBackend id zeroDraws zeroDraws fixtureVar
    fixtureVar 1 2 OptsArg.pyNone [2] 0
    (by
      norm_num [opencl_kraskov, oclBody, oclCfg, oclParseOpts, optsDictOf,
        oclV1, oclV2, addNoise, oclPs, oclDistances, oclRadii, oclC1, oclC2,
        oclKnnCall, chunkMI, pymean, rowDim, fixtureBackend, fixtureVar,
        zeroDraws, List.range_succ]
      norm_num [show Int.toNat 2 = 2 from rfl])
    (by norm_num [fixtureVar]) (by norm_num) (by norm_num)
    (by norm_num [oclC1, oclV1, oclV2, oclRadii, oclDistances, oclPs, addNoise,
      oclCfg, oclParseOpts, optsDictOf, rowDim, fixtureBackend, fixtureVar,
      zeroDraws])
    (by norm_num [oclC2, oclV1, oclV2, oclRadii, oclDistances, oclPs, addNoise,
      oclCfg, oclParseOpts, optsDictOf, rowDim, fixtureBackend, fixtureVar,
      zeroDraws])

/-- Witness for C10 at `lag = 1` on a three-sample pair of variables. -/
theorem jidt_kraskov_lag_shift_witness :
    ∃ c : JidtKraskovCall,
      jidt_kraskov_call fixtureVar3 fixtureVar3
          (OptsArg.pyDict { lag := some 1 }) = Except.ok c ∧
      (0 < (1 : ℤ) → c.obs1 = fixtureVar3.take (fixtureVar3.length - (1 : ℤ).toNat)
        ∧ c.obs2 = fixtureVar3.drop (1 : ℤ).toNat) ∧
      ((1 : ℤ) = 0 → c.obs1 = fixtureVar3 ∧ c.obs2 = fixtureVar3) :=
  jidt_kraskov_lag_shift fixtureVar3 fixtureVar3 { lag := some 1 } 1 rfl
